import Mathlib

/-!
Verification of the reporting/aggregation core of the SaaS-communication
repository: the `generate-report` edge function (date-window resolution, the
four entity aggregators, report assembly, CSV serialization) and the
`send-email` edge function (placeholder template rendering and template
selection), shallowly embedded in Lean.

Modelling conventions:
* Rows fetched from the data source are explicit records; the store itself is
  a `Table` (row list plus an optional query failure), and a query denotes a
  decidable predicate obtained from the filter clauses the code builds.
* JavaScript numbers that hold integral counts and monetary values are
  embedded as `Nat`/`Int`; the one division (`Math.round((won/total)*100)`)
  is embedded exactly over `ℚ` with `Math.round x = ⌊x + 1/2⌋`.
* Timestamps travel as ISO-8601 strings exactly as the code passes them;
  string comparison stands for the store's timestamp comparison.
* `Date.prototype.toISOString` is an external primitive; functions that call
  it take it as an explicit argument, so every theorem holds for the real
  serialization whatever it is.
* `new Date(year, month, day)` month/day overflow normalization (ECMA-262
  MakeDay) is embedded in `jsMakeDate`.
-/

namespace SaaSComm

/-! ## Data model: rows as the queries project them -/

/-- A joined `profiles` projection (`name, email`), as selected for the
ticket query's `customer:` and `assignedTo:` expansions. -/
structure Profile where
  name : Option String
  email : Option String
deriving Repr, DecidableEq

/-- A `tickets` row as projected by `generateTicketReport`'s select list. -/
structure TicketRow where
  id : String
  subject : String
  status : String
  priority : String
  created_at : String
  updated_at : String
  customer_id : String
  assigned_to : Option String
  customer : Option Profile
  assignedTo : Option Profile
deriving Repr, DecidableEq

/-- A `contacts` row (the fields the aggregation reads). -/
structure ContactRow where
  id : String
  status : String
  created_at : String
  created_by : String
deriving Repr, DecidableEq

/-- A `deals` row (the fields the aggregation reads); `value` is the monetary
value column, nullable. -/
structure DealRow where
  id : String
  stage : String
  value : Option Int
  created_at : String
  created_by : String
deriving Repr, DecidableEq

/-- An `appointments` row (the fields the aggregation reads). -/
structure AppointmentRow where
  id : String
  status : String
  start_time : String
  created_by : String
deriving Repr, DecidableEq

/-! ## The abstract data source -/

/-- One entity table of the abstract store: its rows, and an optional query
failure (a failed PostgREST call surfaces as `error` in the destructured
result and is thrown by the aggregator). -/
structure Table (α : Type) where
  rows : List α
  queryError : Option String
deriving Repr

/-- Running an entity query: a failing table yields its error, otherwise the
rows passing the filter predicate the code built. -/
def runQuery {α : Type} (t : Table α) (pred : α → Bool) : Except String (List α) :=
  match t.queryError with
  | some e => Except.error e
  | none => Except.ok (t.rows.filter pred)

/-- The four tables the report touches. -/
structure DataSource where
  tickets : Table TicketRow
  contacts : Table ContactRow
  deals : Table DealRow
  appointments : Table AppointmentRow

/-! ## Query predicates: the denotation of the filter clauses -/

/-- `generateTicketReport`'s filter clauses: `gte('created_at', startDate)`,
`lte('created_at', endDate)`, and
`or('customer_id.eq.U,assigned_to.eq.U')` when a `userId` is given. -/
def ticketQueryPred (startDate endDate userId : Option String) (t : TicketRow) : Bool :=
  (match startDate with | some s => decide (s ≤ t.created_at) | none => true)
  && (match endDate with | some e => decide (t.created_at ≤ e) | none => true)
  && (match userId with
      | some u => (t.customer_id == u || t.assigned_to == some u)
      | none => true)

/-- `generateContactReport`'s filter clauses: date bounds on `created_at`
and `eq('created_by', userId)`. -/
def contactQueryPred (startDate endDate userId : Option String) (c : ContactRow) : Bool :=
  (match startDate with | some s => decide (s ≤ c.created_at) | none => true)
  && (match endDate with | some e => decide (c.created_at ≤ e) | none => true)
  && (match userId with | some u => c.created_by == u | none => true)

/-- `generateDealReport`'s filter clauses: date bounds on `created_at` and
`eq('created_by', userId)`. -/
def dealQueryPred (startDate endDate userId : Option String) (d : DealRow) : Bool :=
  (match startDate with | some s => decide (s ≤ d.created_at) | none => true)
  && (match endDate with | some e => decide (d.created_at ≤ e) | none => true)
  && (match userId with | some u => d.created_by == u | none => true)

/-- `generateAppointmentReport`'s filter clauses: date bounds on
`start_time` and `eq('created_by', userId)`. -/
def appointmentQueryPred (startDate endDate userId : Option String) (a : AppointmentRow) : Bool :=
  (match startDate with | some s => decide (s ≤ a.start_time) | none => true)
  && (match endDate with | some e => decide (a.start_time ≤ e) | none => true)
  && (match userId with | some u => a.created_by == u | none => true)

/-! ## Reductions: rows to entity summaries -/

/-- One step of the `byStatus` reduction: JavaScript
`acc[status] = (acc[status] || 0) + 1` over an insertion-ordered object,
as an association list. A present key is incremented in place; a new key is
appended. -/
def incr : List (String × Nat) → String → List (String × Nat)
  | [], s => [(s, 1)]
  | (k, v) :: rest, s =>
      if k = s then (k, v + 1) :: rest else (k, v) :: incr rest s

/-- The `byStatus` object: `data.reduce((acc, row) => {acc[row.status] =
(acc[row.status] || 0) + 1; return acc}, \x7b\x7d)`. -/
def byStatusOf (statuses : List String) : List (String × Nat) :=
  statuses.foldl incr []

/-- `Math.round` on an exact rational: ECMA-262 rounds to the nearest
integer, half toward positive infinity, i.e. `⌊x + 1/2⌋`. -/
def jsMathRound (q : ℚ) : ℤ := ⌊q + 1 / 2⌋

structure TicketSummary where
  total : Nat
  resolved : Nat
  byStatus : List (String × Nat)
  details : List TicketRow
deriving Repr, DecidableEq

/-- The reduction of `generateTicketReport` (after the fetch). -/
def ticketSummaryOf (data : List TicketRow) : TicketSummary :=
  { total := data.length
    resolved := (data.filter (fun t => t.status = "resolved")).length
    byStatus := byStatusOf (data.map (fun t => t.status))
    details := data }

structure ContactSummary where
  new : Nat
  byStatus : List (String × Nat)
  details : List ContactRow
deriving Repr, DecidableEq

/-- The reduction of `generateContactReport`: `new` is the fetched row
count. -/
def contactSummaryOf (data : List ContactRow) : ContactSummary :=
  { new := data.length
    byStatus := byStatusOf (data.map (fun c => c.status))
    details := data }

structure DealSummary where
  total : Nat
  revenue : Int
  won : Nat
  lost : Nat
  conversionRate : Int
  details : List DealRow
deriving Repr, DecidableEq

/-- The reduction of `generateDealReport`: `revenue` sums `deal.value || 0`;
`conversionRate` is `Math.round((won/total)*100)` guarded by `total > 0`. -/
def dealSummaryOf (data : List DealRow) : DealSummary :=
  let total := data.length
  let won := (data.filter (fun d => d.stage = "closed-won")).length
  { total := total
    revenue := (data.map (fun d => d.value.getD 0)).sum
    won := won
    lost := (data.filter (fun d => d.stage = "closed-lost")).length
    conversionRate :=
      if 0 < total then jsMathRound ((won : ℚ) / (total : ℚ) * 100) else 0
    details := data }

structure AppointmentSummary where
  total : Nat
  completed : Nat
  cancelled : Nat
  completionRate : Int
  details : List AppointmentRow
deriving Repr, DecidableEq

/-- The reduction of `generateAppointmentReport`. -/
def appointmentSummaryOf (data : List AppointmentRow) : AppointmentSummary :=
  let total := data.length
  let completed := (data.filter (fun a => a.status = "completed")).length
  { total := total
    completed := completed
    cancelled := (data.filter (fun a => a.status = "cancelled")).length
    completionRate :=
      if 0 < total then jsMathRound ((completed : ℚ) / (total : ℚ) * 100) else 0
    details := data }

/-! ## Aggregators: query plus reduction, failure propagating -/

def generateTicketReport (tbl : Table TicketRow)
    (startDate endDate userId : Option String) : Except String TicketSummary := do
  let data ← runQuery tbl (ticketQueryPred startDate endDate userId)
  pure (ticketSummaryOf data)

def generateContactReport (tbl : Table ContactRow)
    (startDate endDate userId : Option String) : Except String ContactSummary := do
  let data ← runQuery tbl (contactQueryPred startDate endDate userId)
  pure (contactSummaryOf data)

def generateDealReport (tbl : Table DealRow)
    (startDate endDate userId : Option String) : Except String DealSummary := do
  let data ← runQuery tbl (dealQueryPred startDate endDate userId)
  pure (dealSummaryOf data)

def generateAppointmentReport (tbl : Table AppointmentRow)
    (startDate endDate userId : Option String) : Except String AppointmentSummary := do
  let data ← runQuery tbl (appointmentQueryPred startDate endDate userId)
  pure (appointmentSummaryOf data)

/-! ## Date-window resolution -/

/-- `ReportRequest.type`. -/
inductive ReportType where
  | weekly
  | monthly
  | custom
deriving Repr, DecidableEq

def ReportType.toStr : ReportType → String
  | .weekly => "weekly"
  | .monthly => "monthly"
  | .custom => "custom"

/-- `ReportRequest.format` (default `json` applied at destructuring). -/
inductive OutputFormat where
  | json
  | pdf
  | csv
deriving Repr, DecidableEq

/-- The request after destructuring. -/
structure ReportRequest where
  type : ReportType
  startDate : Option String
  endDate : Option String
  userId : Option String
  format : OutputFormat
deriving Repr

/-- The wall clock as the handler reads it: `getTime()` in epoch
milliseconds and the local calendar components `getFullYear()`,
`getMonth()` (0-based), `getDate()` (1-based). -/
structure JsClock where
  ms : Int
  year : Int
  month : Nat
  day : Nat
deriving Repr

/-- Leap-year rule of the proleptic Gregorian calendar (ECMA-262
`DaysInYear`). -/
def isLeap (y : Int) : Bool :=
  (y % 4 == 0 && y % 100 != 0) || y % 400 == 0

/-- Days in month `m` (0-based) of year `y`. -/
def daysInMonth (y : Int) (m : Nat) : Nat :=
  match m with
  | 0 => 31
  | 1 => if isLeap y then 29 else 28
  | 2 => 31
  | 3 => 30
  | 4 => 31
  | 5 => 30
  | 6 => 31
  | 7 => 31
  | 8 => 30
  | 9 => 31
  | 10 => 30
  | _ => 31

/-- The month after `(y, m)`. -/
def monthSucc (y : Int) (m : Nat) : Int × Nat :=
  if m = 11 then (y + 1, 0) else (y, m + 1)

/-- Day-overflow normalization of ECMA-262 `MakeDay` for a day count `d ≥ 1`:
while `d` exceeds the month's length, move to the next month. `fuel`
bounds the recursion; `fuel = d` always suffices since every step removes
at least 28 days. -/
def fixDay : Nat → Int → Nat → Nat → Int × Nat × Nat
  | 0, y, m, d => (y, m, d)
  | fuel + 1, y, m, d =>
      if d ≤ daysInMonth y m then (y, m, d)
      else
        let ym := monthSucc y m
        fixDay fuel ym.1 ym.2 (d - daysInMonth y m)

/-- `new Date(y, m, d).{getFullYear, getMonth, getDate}` for a possibly
out-of-range month `m : ℤ` and day `d ≥ 1`: month is normalized into
`0..11` carrying years, then day overflow rolls into following months. -/
def jsMakeDate (y m : Int) (d : Nat) : Int × Nat × Nat :=
  let y2 := y + m / 12
  let m2 := (m % 12).toNat
  fixDay d y2 m2 d

/-- The calendar triple of the `monthly` branch,
`new Date(now.getFullYear(), now.getMonth() - 1, now.getDate())`. -/
def monthlyWindowStart (now : JsClock) : Int × Nat × Nat :=
  jsMakeDate now.year ((now.month : Int) - 1) now.day

/-- The `weekly` branch's start instant,
`new Date(now.getTime() - 7 * 24 * 60 * 60 * 1000)`. -/
def weekAgoMs (nowMs : Int) : Int :=
  nowMs - 7 * 24 * 60 * 60 * 1000

/-- Lines 31–44 of the handler: the resolved `(reportStartDate,
reportEndDate)` pair. `toIsoMs` stands for serializing an epoch-millisecond
instant with `toISOString`, `toIsoYmd` for serializing the local calendar
date a `new Date(y, m, d)` denotes. -/
def resolveWindow (toIsoMs : Int → String) (toIsoYmd : Int × Nat × Nat → String)
    (type : ReportType) (startDate endDate : Option String) (now : JsClock) :
    Option String × Option String :=
  match type with
  | .weekly => (some (toIsoMs (weekAgoMs now.ms)), some (toIsoMs now.ms))
  | .monthly => (some (toIsoYmd (monthlyWindowStart now)), some (toIsoMs now.ms))
  | .custom => (startDate, endDate)

/-! ## Report assembly -/

structure ReportMeta where
  type : String
  startDate : Option String
  endDate : Option String
  generatedAt : String
  userId : Option String
deriving Repr

structure ReportSummary where
  totalTickets : Nat
  resolvedTickets : Nat
  newContacts : Nat
  totalRevenue : Int
  appointmentsHeld : Nat
deriving Repr

/-- The assembled `ReportDocument`: the four entity summaries are all
present by construction (there is no partial variant). -/
structure Report where
  meta : ReportMeta
  summary : ReportSummary
  tickets : TicketSummary
  contacts : ContactSummary
  deals : DealSummary
  appointments : AppointmentSummary
deriving Repr

/-- Lines 47–73: fan out the four aggregators (`Promise.all` rejects the
join as soon as any one rejects, so the first failure in array order
surfaces) and build the document with its top-level summary. -/
def assembleReport (ds : DataSource) (startDate endDate userId : Option String)
    (typeStr generatedAt : String) : Except String Report := do
  let ticketsData ← generateTicketReport ds.tickets startDate endDate userId
  let contactsData ← generateContactReport ds.contacts startDate endDate userId
  let dealsData ← generateDealReport ds.deals startDate endDate userId
  let appointmentsData ← generateAppointmentReport ds.appointments startDate endDate userId
  pure
    { meta :=
        { type := typeStr
          startDate := startDate
          endDate := endDate
          generatedAt := generatedAt
          userId := userId }
      summary :=
        { totalTickets := ticketsData.total
          resolvedTickets := ticketsData.resolved
          newContacts := contactsData.new
          totalRevenue := dealsData.revenue
          appointmentsHeld := appointmentsData.completed }
      tickets := ticketsData
      contacts := contactsData
      deals := dealsData
      appointments := appointmentsData }

/-! ## CSV serialization -/

/-- A template-literal interpolation of a possibly-undefined string:
JavaScript stringifies `undefined` as `"undefined"`. -/
def jsOptStr : Option String → String
  | some s => s
  | none => "undefined"

/-- `ticket.customer?.name || ''`: optional chaining on a missing object or
name, then the falsy default. -/
def nameOrEmpty (p : Option Profile) : String :=
  match p with
  | some prof => (prof.name).getD ""
  | none => ""

/-- One pushed ticket detail line of `generateCsvReport`. -/
def ticketCsvLine (t : TicketRow) : String :=
  t.id ++ "," ++ t.subject ++ "," ++ t.status ++ "," ++ t.priority ++ ","
    ++ t.created_at ++ "," ++ nameOrEmpty t.customer ++ ","
    ++ nameOrEmpty t.assignedTo

/-- The fixed 15-line header block of `generateCsvReport` (summary, key
metrics, and the ticket detail column header). -/
def csvHeaderLines (report : Report) : List String :=
  [ "Report Summary"
  , "Type," ++ report.meta.type
  , "Generated At," ++ report.meta.generatedAt
  , "Start Date," ++ jsOptStr report.meta.startDate
  , "End Date," ++ jsOptStr report.meta.endDate
  , ""
  , "Key Metrics"
  , "Total Tickets," ++ toString report.summary.totalTickets
  , "Resolved Tickets," ++ toString report.summary.resolvedTickets
  , "New Contacts," ++ toString report.summary.newContacts
  , "Total Revenue,$" ++ toString report.summary.totalRevenue
  , "Appointments Held," ++ toString report.summary.appointmentsHeld
  , ""
  , "Ticket Details"
  , "ID,Subject,Status,Priority,Created At,Customer,Assigned To" ]

/-- The `lines` array after the `forEach` push loop. -/
def csvLines (report : Report) : List String :=
  csvHeaderLines report ++ report.tickets.details.map ticketCsvLine

/-- `generateCsvReport`: the line list joined with newlines. -/
def generateCsvReport (report : Report) : String :=
  String.intercalate "\n" (csvLines report)

/-! ## The request handler -/

/-- The handler's possible responses: CSV text, the JSON document, the JSON
document with the PDF-capability note, or the catch-all single error
object. -/
inductive ReportResponse where
  | csv (body : String)
  | json (report : Report)
  | jsonWithNote (report : Report) (note : String)
  | error (msg : String)
deriving Repr

/-- The `serve` handler body (post-CORS): resolve the window, assemble, and
serialize by format; any aggregator failure falls to the catch branch,
which answers with the single error object. -/
def handleRequest (toIsoMs : Int → String) (toIsoYmd : Int × Nat × Nat → String)
    (ds : DataSource) (req : ReportRequest) (now : JsClock) : ReportResponse :=
  let window := resolveWindow toIsoMs toIsoYmd req.type req.startDate req.endDate now
  match assembleReport ds window.1 window.2 req.userId req.type.toStr (toIsoMs now.ms) with
  | Except.error msg => ReportResponse.error msg
  | Except.ok report =>
      match req.format with
      | OutputFormat.csv => ReportResponse.csv (generateCsvReport report)
      | OutputFormat.pdf =>
          ReportResponse.jsonWithNote report
            "PDF generation not implemented in demo. Use JSON or CSV format."
      | OutputFormat.json => ReportResponse.json report

/-! ## The notification collaborator: template rendering -/

/-- The character class of the placeholder regex `\w`: `[A-Za-z0-9_]`. -/
def isWordChar (c : Char) : Bool :=
  c.isAlphanum || c == '_'

/-- The property names every plain object (an object literal, or a
`JSON.parse` result) inherits from `Object.prototype`, ECMA-262 §20.2.3
plus the Annex B accessors: reading one of these on an object that does
not shadow it with an own property yields an inherited function (or, for
`__proto__`, the prototype object) — a truthy, non-string value. All of
them happen to match the placeholder word class `\w+`. -/
def objectProtoKeys : List String :=
  [ "constructor", "hasOwnProperty", "isPrototypeOf", "propertyIsEnumerable"
  , "toLocaleString", "toString", "valueOf", "__proto__"
  , "__defineGetter__", "__defineSetter__", "__lookupGetter__", "__lookupSetter__" ]

/-- What `obj[key]` yields on a plain object holding a flat string
mapping: the own property's string value when the key is bound, an
inherited `Object.prototype` member (truthy, not a string) when the key is
one of `objectProtoKeys`, and `undefined` otherwise. -/
inductive JsProp where
  | str (v : String)
  | builtin (name : String)
  | undef
deriving Repr, DecidableEq

/-- `data[key]` with prototype-chain lookup: an own property shadows an
inherited one. -/
def jsIndex (data : List (String × String)) (key : String) : JsProp :=
  match data.lookup key with
  | some v => JsProp.str v
  | none => if key ∈ objectProtoKeys then JsProp.builtin key else JsProp.undef

/-- `template.replace(/\x7b\x7b(\w+)\x7d\x7d/g, (match, key) => data[key] || match)`
over the character list: at each position, a delimited word is a match; a
key bound to a truthy (non-empty) own string value is replaced by it, a
key hitting an inherited `Object.prototype` member (always truthy) is
replaced by that member's string form, and otherwise (`undefined` or an
own falsy value) the matched text stands; on no match the scan advances
one character. `protoStr` stands for the engine's stringification of each
inherited member (e.g. `function toString() ...`). -/
def renderChars (protoStr : String → String) (data : List (String × String)) :
    List Char → List Char
  | [] => []
  | '{' :: '{' :: rest =>
      let word := rest.takeWhile isWordChar
      let tail := rest.dropWhile isWordChar
      if word ≠ [] ∧ tail.take 2 = ['}', '}'] then
        (match jsIndex data (String.mk word) with
          | JsProp.str v => if v = "" then '{' :: '{' :: (word ++ ['}', '}']) else v.data
          | JsProp.builtin name => (protoStr name).data
          | JsProp.undef => '{' :: '{' :: (word ++ ['}', '}']))
          ++ renderChars protoStr data (tail.drop 2)
      else '{' :: renderChars protoStr data ('{' :: rest)
  | c :: rest => c :: renderChars protoStr data rest
termination_by l => l.length
decreasing_by
  · have hdw : ∀ (l : List Char), (l.dropWhile isWordChar).length ≤ l.length := by
      intro l
      induction l with
      | nil => simp [List.dropWhile]
      | cons a t ih =>
          rw [List.dropWhile_cons]
          split
          · exact Nat.le_succ_of_le ih
          · exact Nat.le_refl _
    have h2 := hdw rest
    simp only [List.length_cons, List.length_drop]
    omega
  · simp only [List.length_cons]
    omega
  · simp only [List.length_cons]
    omega

/-- `renderTemplate(template, data)` of `send-email/index.ts`,
parameterized by the engine's stringification of inherited
`Object.prototype` members. -/
def renderTemplate (protoStr : String → String) (template : String)
    (data : List (String × String)) : String :=
  String.mk (renderChars protoStr data template.data)

/-! ### Token-level view of a template body (specification side) -/

/-- A template body parsed into literal runs and placeholders. -/
inductive Tok where
  | lit (s : String)
  | ph (name : String)
deriving Repr, DecidableEq

/-- The text a token stands for in the template body. -/
def Tok.text : Tok → String
  | .lit s => s
  | .ph n => "\x7b\x7b" ++ n ++ "\x7d\x7d"

/-- The template body a token list denotes. -/
def assemble : List Tok → String
  | [] => ""
  | t :: ts => Tok.text t ++ assemble ts

/-- The substitution the claim describes: every placeholder whose name is
present in the mapping is replaced by its string value; an absent name is
left verbatim. -/
def renderToksClaim (data : List (String × String)) : List Tok → String
  | [] => ""
  | Tok.lit s :: ts => s ++ renderToksClaim data ts
  | Tok.ph n :: ts =>
      (match data.lookup n with
        | some v => v
        | none => Tok.text (Tok.ph n)) ++ renderToksClaim data ts

/-- The substitution the code performs: a placeholder is replaced by its
own mapped value when that value is truthy (non-empty), by the
stringified inherited member when its name is an unshadowed
`Object.prototype` key, and is left verbatim otherwise (unknown names and
names bound to the empty, falsy string). -/
def renderToksActual (protoStr : String → String) (data : List (String × String)) :
    List Tok → String
  | [] => ""
  | Tok.lit s :: ts => s ++ renderToksActual protoStr data ts
  | Tok.ph n :: ts =>
      (match jsIndex data n with
        | JsProp.str v => if v = "" then Tok.text (Tok.ph n) else v
        | JsProp.builtin name => protoStr name
        | JsProp.undef => Tok.text (Tok.ph n)) ++ renderToksActual protoStr data ts

/-- Well-formed tokens: literal runs carry no opening brace (so they cannot
take part in a placeholder) and placeholder names are non-empty words. -/
def TokWF : Tok → Prop
  | .lit s => ∀ c ∈ s.data, c ≠ '{'
  | .ph n => n.data ≠ [] ∧ ∀ c ∈ n.data, isWordChar c = true

/-! ## The fixed template set of `send-email/index.ts` -/

structure EmailTemplate where
  subject : String
  html : String
  text : String
deriving Repr, DecidableEq

def welcomeTemplate : EmailTemplate :=
  { subject := "Welcome to CommHub!"
    html := "\n      <div style=\"font-family: Arial, sans-serif; max-width: 600px; margin: 0 auto;\">\n"
      ++ "        <h1 style=\"color: #2563eb;\">Welcome to CommHub!</h1>\n"
      ++ "        <p>Hi \x7b\x7bname\x7d\x7d,</p>\n"
      ++ "        <p>Thank you for joining CommHub - your complete communication tools platform.</p>\n"
      ++ "        <p>You can now:</p>\n"
      ++ "        <ul>\n"
      ++ "          <li>Manage customer support tickets</li>\n"
      ++ "          <li>Track contacts and deals in CRM</li>\n"
      ++ "          <li>Schedule appointments and meetings</li>\n"
      ++ "          <li>View analytics and reports</li>\n"
      ++ "        </ul>\n"
      ++ "        <p>Get started by logging into your account:</p>\n"
      ++ "        <a href=\"\x7b\x7bloginUrl\x7d\x7d\" style=\"background-color: #2563eb; color: white; padding: 12px 24px; text-decoration: none; border-radius: 6px; display: inline-block;\">\n"
      ++ "          Login to CommHub\n"
      ++ "        </a>\n"
      ++ "        <p>Best regards,<br>The CommHub Team</p>\n"
      ++ "      </div>\n    "
    text := "Welcome to CommHub!\n\nHi \x7b\x7bname\x7d\x7d,\n\nThank you for joining CommHub - your complete communication tools platform.\n\nYou can now manage customer support tickets, track contacts and deals in CRM, schedule appointments and meetings, and view analytics and reports.\n\nGet started by logging into your account: \x7b\x7bloginUrl\x7d\x7d\n\nBest regards,\nThe CommHub Team" }

def ticketCreatedTemplate : EmailTemplate :=
  { subject := "Support Ticket Created - #\x7b\x7bticketId\x7d\x7d"
    html := "\n      <div style=\"font-family: Arial, sans-serif; max-width: 600px; margin: 0 auto;\">\n"
      ++ "        <h1 style=\"color: #2563eb;\">Support Ticket Created</h1>\n"
      ++ "        <p>Hi \x7b\x7bcustomerName\x7d\x7d,</p>\n"
      ++ "        <p>Your support ticket has been created successfully.</p>\n"
      ++ "        <div style=\"background-color: #f3f4f6; padding: 16px; border-radius: 8px; margin: 16px 0;\">\n"
      ++ "          <h3 style=\"margin: 0 0 8px 0;\">Ticket Details</h3>\n"
      ++ "          <p><strong>Ticket ID:</strong> #\x7b\x7bticketId\x7d\x7d</p>\n"
      ++ "          <p><strong>Subject:</strong> \x7b\x7bsubject\x7d\x7d</p>\n"
      ++ "          <p><strong>Priority:</strong> \x7b\x7bpriority\x7d\x7d</p>\n"
      ++ "          <p><strong>Status:</strong> \x7b\x7bstatus\x7d\x7d</p>\n"
      ++ "        </div>\n"
      ++ "        <p>Our support team will review your ticket and respond as soon as possible.</p>\n"
      ++ "        <p>You can track the progress of your ticket in your dashboard.</p>\n"
      ++ "        <p>Best regards,<br>CommHub Support Team</p>\n"
      ++ "      </div>\n    "
    text := "Support Ticket Created - #\x7b\x7bticketId\x7d\x7d\n\nHi \x7b\x7bcustomerName\x7d\x7d,\n\nYour support ticket has been created successfully.\n\nTicket Details:\n- Ticket ID: #\x7b\x7bticketId\x7d\x7d\n- Subject: \x7b\x7bsubject\x7d\x7d\n- Priority: \x7b\x7bpriority\x7d\x7d\n- Status: \x7b\x7bstatus\x7d\x7d\n\nOur support team will review your ticket and respond as soon as possible.\n\nBest regards,\nCommHub Support Team" }

def appointmentReminderTemplate : EmailTemplate :=
  { subject := "Appointment Reminder - \x7b\x7btitle\x7d\x7d"
    html := "\n      <div style=\"font-family: Arial, sans-serif; max-width: 600px; margin: 0 auto;\">\n"
      ++ "        <h1 style=\"color: #2563eb;\">Appointment Reminder</h1>\n"
      ++ "        <p>Hi \x7b\x7battendeeName\x7d\x7d,</p>\n"
      ++ "        <p>This is a reminder about your upcoming appointment.</p>\n"
      ++ "        <div style=\"background-color: #f3f4f6; padding: 16px; border-radius: 8px; margin: 16px 0;\">\n"
      ++ "          <h3 style=\"margin: 0 0 8px 0;\">Appointment Details</h3>\n"
      ++ "          <p><strong>Title:</strong> \x7b\x7btitle\x7d\x7d</p>\n"
      ++ "          <p><strong>Date & Time:</strong> \x7b\x7bstartTime\x7d\x7d</p>\n"
      ++ "          <p><strong>Duration:</strong> \x7b\x7bduration\x7d\x7d</p>\n"
      ++ "          <p><strong>Location:</strong> \x7b\x7blocation\x7d\x7d</p>\n"
      ++ "          \x7b\x7b#if meetingLink\x7d\x7d\n"
      ++ "          <p><strong>Meeting Link:</strong> <a href=\"\x7b\x7bmeetingLink\x7d\x7d\">Join Meeting</a></p>\n"
      ++ "          \x7b\x7b/if\x7d\x7d\n"
      ++ "        </div>\n"
      ++ "        <p>\x7b\x7b#if description\x7d\x7d\x7b\x7bdescription\x7d\x7d\x7b\x7b/if\x7d\x7d</p>\n"
      ++ "        <p>Please make sure to join on time.</p>\n"
      ++ "        <p>Best regards,<br>CommHub Team</p>\n"
      ++ "      </div>\n    "
    text := "Appointment Reminder - \x7b\x7btitle\x7d\x7d\n\nHi \x7b\x7battendeeName\x7d\x7d,\n\nThis is a reminder about your upcoming appointment.\n\nAppointment Details:\n- Title: \x7b\x7btitle\x7d\x7d\n- Date & Time: \x7b\x7bstartTime\x7d\x7d\n- Duration: \x7b\x7bduration\x7d\x7d\n- Location: \x7b\x7blocation\x7d\x7d\n\x7b\x7b#if meetingLink\x7d\x7d- Meeting Link: \x7b\x7bmeetingLink\x7d\x7d\n\x7b\x7b/if\x7d\x7d\n\x7b\x7b#if description\x7d\x7d\n\x7b\x7bdescription\x7d\x7d\n\x7b\x7b/if\x7d\x7d\nPlease make sure to join on time.\n\nBest regards,\nCommHub Team" }

def weeklyReportTemplate : EmailTemplate :=
  { subject := "Weekly Performance Report"
    html := "\n      <div style=\"font-family: Arial, sans-serif; max-width: 600px; margin: 0 auto;\">\n"
      ++ "        <h1 style=\"color: #2563eb;\">Weekly Performance Report</h1>\n"
      ++ "        <p>Hi \x7b\x7buserName\x7d\x7d,</p>\n"
      ++ "        <p>Here\x27s your weekly performance summary:</p>\n"
      ++ "        <div style=\"background-color: #f3f4f6; padding: 16px; border-radius: 8px; margin: 16px 0;\">\n"
      ++ "          <h3 style=\"margin: 0 0 16px 0;\">This Week\x27s Highlights</h3>\n"
      ++ "          <div style=\"display: grid; grid-template-columns: 1fr 1fr; gap: 16px;\">\n"
      ++ "            <div>\n"
      ++ "              <p><strong>Tickets Resolved:</strong> \x7b\x7bticketsResolved\x7d\x7d</p>\n"
      ++ "              <p><strong>New Contacts:</strong> \x7b\x7bnewContacts\x7d\x7d</p>\n"
      ++ "            </div>\n"
      ++ "            <div>\n"
      ++ "              <p><strong>Meetings Held:</strong> \x7b\x7bmeetingsHeld\x7d\x7d</p>\n"
      ++ "              <p><strong>Revenue Generated:</strong> $\x7b\x7brevenue\x7d\x7d</p>\n"
      ++ "            </div>\n"
      ++ "          </div>\n"
      ++ "        </div>\n"
      ++ "        <p>Keep up the great work!</p>\n"
      ++ "        <a href=\"\x7b\x7bdashboardUrl\x7d\x7d\" style=\"background-color: #2563eb; color: white; padding: 12px 24px; text-decoration: none; border-radius: 6px; display: inline-block;\">\n"
      ++ "          View Full Report\n"
      ++ "        </a>\n"
      ++ "        <p>Best regards,<br>CommHub Analytics Team</p>\n"
      ++ "      </div>\n    "
    text := "Weekly Performance Report\n\nHi \x7b\x7buserName\x7d\x7d,\n\nHere\x27s your weekly performance summary:\n\nThis Week\x27s Highlights:\n- Tickets Resolved: \x7b\x7bticketsResolved\x7d\x7d\n- New Contacts: \x7b\x7bnewContacts\x7d\x7d\n- Meetings Held: \x7b\x7bmeetingsHeld\x7d\x7d\n- Revenue Generated: $\x7b\x7brevenue\x7d\x7d\n\nKeep up the great work!\n\nView Full Report: \x7b\x7bdashboardUrl\x7d\x7d\n\nBest regards,\nCommHub Analytics Team" }

/-- The fixed, insertion-ordered template dictionary. -/
def templates : List (String × EmailTemplate) :=
  [ ("welcome", welcomeTemplate)
  , ("ticket_created", ticketCreatedTemplate)
  , ("appointment_reminder", appointmentReminderTemplate)
  , ("weekly_report", weeklyReportTemplate) ]

/-- `EmailRequest.to`: `string | string[]`. -/
inductive Recipients where
  | one (addr : String)
  | many (addrs : List String)
deriving Repr

/-- The destructured email request (`templateData` defaults to the empty
mapping); `recipients` models the request's `to` field (`to` is a reserved
token here). -/
structure EmailRequest where
  recipients : Recipients
  subject : String
  html : Option String
  text : Option String
  template : Option String
  templateData : List (String × String)
deriving Repr

/-- What `templates[template]` yields: an own entry of the dictionary, an
inherited `Object.prototype` member (truthy but carrying no
`subject`/`html`/`text` fields), or `undefined`. -/
inductive TemplatesHit where
  | tmpl (t : EmailTemplate)
  | builtin
  | undef
deriving Repr, DecidableEq

/-- `templates[template]` with prototype-chain lookup: the `templates`
object literal inherits from `Object.prototype`, so a name such as
`toString` or `constructor` hits an inherited member. -/
def templatesIndex (name : String) : TemplatesHit :=
  match templates.lookup name with
  | some t => TemplatesHit.tmpl t
  | none => if name ∈ objectProtoKeys then TemplatesHit.builtin else TemplatesHit.undef

/-- The send-email handler's outcome: the outgoing `(subject, html, text)`
of the logged/sent message, or the catch branch's 500
`\x7bsuccess: false, error\x7d` response. -/
inductive EmailResponse where
  | sent (subject : String) (html text : Option String)
  | failure
deriving Repr, DecidableEq

/-- Lines 135–147 of `send-email/index.ts` plus its catch branch. The
guard `template && templates[template]` is falsy when no template is named,
when the name is the empty string, and when indexing yields `undefined`;
then the caller-supplied fields pass through unchanged. When the name is a
key of the dictionary, the template's three parts are rendered. When the
name hits an inherited `Object.prototype` member (e.g. `toString`), the
guard is truthy, the template branch runs with `tmpl.subject` equal to
`undefined`, `renderTemplate` throws `TypeError` on `undefined.replace`,
and the handler answers with the failure response. -/
def handleEmailRequest (protoStr : String → String) (req : EmailRequest) : EmailResponse :=
  match req.template with
  | some name =>
      if name = "" then EmailResponse.sent req.subject req.html req.text
      else
        match templatesIndex name with
        | TemplatesHit.tmpl tmpl =>
            EmailResponse.sent (renderTemplate protoStr tmpl.subject req.templateData)
              (some (renderTemplate protoStr tmpl.html req.templateData))
              (some (renderTemplate protoStr tmpl.text req.templateData))
        | TemplatesHit.builtin => EmailResponse.failure
        | TemplatesHit.undef => EmailResponse.sent req.subject req.html req.text
  | none => EmailResponse.sent req.subject req.html req.text

/-- `recipients: Array.isArray(to) ? to.length : 1` of the success
response. -/
def recipientsCount : Recipients → Nat
  | .one _ => 1
  | .many l => l.length

/-! ## Specification-side calendar helpers -/

/-- The month before `(y, m)` (`m` 0-based). -/
def prevYM (y : Int) (m : Nat) : Int × Nat :=
  if m = 0 then (y - 1, 11) else (y, m - 1)

/-- The spec's reading of the monthly window: the start is the same
day-of-month exactly one calendar month before the end. -/
def oneCalendarMonthBefore (start : Int × Nat × Nat) (stop : Int × Nat × Nat) : Prop :=
  (start.1, start.2.1) = prevYM stop.1 stop.2.1 ∧ start.2.2 = stop.2.2

/-! # Theorems -/

/-! ## Calendar arithmetic helpers -/

theorem daysInMonth_ge (y : Int) (m : Nat) : 28 ≤ daysInMonth y m := by
  unfold daysInMonth
  split <;> first | omega | (split <;> omega)

theorem daysInMonth_le (y : Int) (m : Nat) : daysInMonth y m ≤ 31 := by
  unfold daysInMonth
  split <;> first | omega | (split <;> omega)

theorem monthSucc_prevYM (y : Int) (m : Nat) (hm : m < 12) :
    monthSucc (prevYM y m).1 (prevYM y m).2 = (y, m) := by
  by_cases h : m = 0
  · subst h
    simp [prevYM, monthSucc]
  · simp only [prevYM, if_neg h, monthSucc]
    have h11 : ¬ (m - 1 = 11) := by omega
    simp only [if_neg h11]
    have hmm : m - 1 + 1 = m := by omega
    rw [hmm]

theorem jsMakeDate_prev_month (y : Int) (m : Nat) (d : Nat) (hm : m < 12) :
    jsMakeDate y ((m : Int) - 1) d = fixDay d (prevYM y m).1 (prevYM y m).2 d := by
  by_cases h0 : m = 0
  · subst h0
    show fixDay d (y + ((0 : Int) - 1) / 12) ((((0 : Int) - 1) % 12).toNat) d
        = fixDay d (prevYM y 0).1 (prevYM y 0).2 d
    have e1 : ((0 : Int) - 1) / 12 = -1 := by decide
    have e2 : (((0 : Int) - 1) % 12).toNat = 11 := by decide
    rw [e1, e2]
    have e3 : y + (-1 : Int) = y - 1 := by ring
    rw [e3]
    simp [prevYM]
  · have hge : 1 ≤ m := Nat.one_le_iff_ne_zero.mpr h0
    unfold jsMakeDate
    have h1 : ((m : Int) - 1) / 12 = 0 := by
      apply Int.ediv_eq_zero_of_lt <;> omega
    have h2 : ((m : Int) - 1) % 12 = (m : Int) - 1 := by
      apply Int.emod_eq_of_lt <;> omega
    have h3 : ((m : Int) - 1).toNat = m - 1 := by omega
    rw [h1, h2, h3]
    have h4 : y + (0 : Int) = y := by ring
    rw [h4]
    simp [prevYM, h0]

/-! ## C1: the monthly window start -/

/-- C1 (counterexample): resolving a monthly report from 2025-03-31
(`month = 2` 0-based, `day = 31`) yields the window start 2025-03-03 —
`new Date(2025, 1, 31)` silently rolls past February — so the start is not
one calendar month before the end, contrary to the claim. -/
theorem monthly_window_march31_cex :
    monthlyWindowStart { ms := 0, year := 2025, month := 2, day := 31 } = (2025, 2, 3) ∧
    ¬ oneCalendarMonthBefore
        (monthlyWindowStart { ms := 0, year := 2025, month := 2, day := 31 })
        (2025, 2, 31) := by
  constructor
  · decide
  · unfold oneCalendarMonthBefore
    decide

/-- C1 (amended): for a monthly report resolved at a valid calendar date,
the window start is `(year, month - 1, day)` — exactly one calendar month
before the end — whenever the previous month has at least `day` days;
otherwise the day count overflows the previous month, and the start rolls
into the end's own month with day `day - daysInMonth(previous month)`. -/
theorem monthly_window_amended (ms y : Int) (m d : Nat) (hm : m < 12)
    (hd1 : 1 ≤ d) (hd : d ≤ daysInMonth y m) :
    monthlyWindowStart { ms := ms, year := y, month := m, day := d } =
      (if d ≤ daysInMonth (prevYM y m).1 (prevYM y m).2
       then ((prevYM y m).1, (prevYM y m).2, d)
       else (y, m, d - daysInMonth (prevYM y m).1 (prevYM y m).2)) ∧
    (d ≤ daysInMonth (prevYM y m).1 (prevYM y m).2 →
      oneCalendarMonthBefore
        (monthlyWindowStart { ms := ms, year := y, month := m, day := d })
        (y, m, d)) := by
  have hstep : monthlyWindowStart { ms := ms, year := y, month := m, day := d } =
      (if d ≤ daysInMonth (prevYM y m).1 (prevYM y m).2
       then ((prevYM y m).1, (prevYM y m).2, d)
       else (y, m, d - daysInMonth (prevYM y m).1 (prevYM y m).2)) := by
    unfold monthlyWindowStart
    rw [jsMakeDate_prev_month y m d hm]
    obtain ⟨k, rfl⟩ : ∃ k, d = k + 1 := ⟨d - 1, by omega⟩
    by_cases hcase : k + 1 ≤ daysInMonth (prevYM y m).1 (prevYM y m).2
    · rw [if_pos hcase]
      simp only [fixDay, if_pos hcase]
    · rw [if_neg hcase]
      have hge : 28 ≤ daysInMonth (prevYM y m).1 (prevYM y m).2 :=
        daysInMonth_ge (prevYM y m).1 (prevYM y m).2
      have hge2 : 28 ≤ daysInMonth y m := daysInMonth_ge y m
      have hdle : daysInMonth y m ≤ 31 := daysInMonth_le y m
      have hsucc : monthSucc (prevYM y m).1 (prevYM y m).2 = (y, m) :=
        monthSucc_prevYM y m hm
      simp only [fixDay, if_neg hcase, hsucc]
      obtain ⟨k2, hk2⟩ : ∃ k2, k = k2 + 1 := ⟨k - 1, by omega⟩
      subst hk2
      have hstop : k2 + 1 + 1 - daysInMonth (prevYM y m).1 (prevYM y m).2 ≤ daysInMonth y m := by
        omega
      simp only [fixDay, if_pos hstop]
  refine ⟨hstep, fun hle => ?_⟩
  rw [hstep, if_pos hle]
  exact ⟨rfl, rfl⟩

/-- C1 (amended, witness): resolving from 2025-03-15 gives the start
2025-02-15, one calendar month earlier. -/
theorem monthly_window_amended_witness :
    monthlyWindowStart { ms := 0, year := 2025, month := 2, day := 15 } = (2025, 1, 15) := by
  have h := (monthly_window_amended 0 2025 2 15 (by decide) (by decide) (by decide)).1
  rw [h]
  decide

/-! ## C9: the weekly window -/

/-- C9: for every weekly report request the resolved window is
`[now - 7 days, now]`: the two bounds differ by exactly
`7 * 24 * 60 * 60 * 1000` milliseconds, caller-supplied bounds playing no
part. -/
theorem weekly_window_length (toIsoMs : Int → String)
    (toIsoYmd : Int × Nat × Nat → String) (s e : Option String) (now : JsClock) :
    now.ms - weekAgoMs now.ms = 7 * 24 * 60 * 60 * 1000 ∧
    resolveWindow toIsoMs toIsoYmd ReportType.weekly s e now =
      (some (toIsoMs (weekAgoMs now.ms)), some (toIsoMs now.ms)) := by
  constructor
  · unfold weekAgoMs
    ring
  · rfl

/-! ## C7: custom pass-through, weekly/monthly computed -/

/-- C7: a custom report uses the caller-supplied bounds verbatim (absent
bounds stay absent, leaving that side unbounded); weekly and monthly
reports compute both bounds, so any caller-supplied bounds are ignored. -/
theorem custom_verbatim_fixed_computed (toIsoMs : Int → String)
    (toIsoYmd : Int × Nat × Nat → String) (s e : Option String) (now : JsClock) :
    resolveWindow toIsoMs toIsoYmd ReportType.custom s e now = (s, e) ∧
    (∀ s2 e2,
      resolveWindow toIsoMs toIsoYmd ReportType.weekly s e now =
        resolveWindow toIsoMs toIsoYmd ReportType.weekly s2 e2 now ∧
      resolveWindow toIsoMs toIsoYmd ReportType.monthly s e now =
        resolveWindow toIsoMs toIsoYmd ReportType.monthly s2 e2 now) := by
  exact ⟨rfl, fun s2 e2 => ⟨rfl, rfl⟩⟩

/-! ## C2: a single query failure aborts the whole report -/

theorem assembleReport_error_of_failure (ds : DataSource)
    (s e u : Option String) (ts ga : String)
    (h : ds.tickets.queryError ≠ none ∨ ds.contacts.queryError ≠ none ∨
         ds.deals.queryError ≠ none ∨ ds.appointments.queryError ≠ none) :
    ∃ msg, assembleReport ds s e u ts ga = Except.error msg := by
  unfold assembleReport generateTicketReport generateContactReport
    generateDealReport generateAppointmentReport runQuery
  rcases hT : ds.tickets.queryError with _ | eT
  · rcases hC : ds.contacts.queryError with _ | eC
    · rcases hD : ds.deals.queryError with _ | eD
      · rcases hA : ds.appointments.queryError with _ | eA
        · exfalso
          rcases h with h | h | h | h <;> simp_all
        · exact ⟨eA, by simp [hT, hC, hD, hA, Bind.bind, Except.bind, pure, Except.pure]⟩
      · exact ⟨eD, by simp [hT, hC, hD, Bind.bind, Except.bind, pure, Except.pure]⟩
    · exact ⟨eC, by simp [hT, hC, Bind.bind, Except.bind, pure, Except.pure]⟩
  · exact ⟨eT, by simp [hT, Bind.bind, Except.bind, pure, Except.pure]⟩

/-- C2: if any one of the four entity queries fails, the whole request is
answered with the single error object — no report document (partial or
otherwise) is produced in any output format. -/
theorem query_failure_aborts_report (toIsoMs : Int → String)
    (toIsoYmd : Int × Nat × Nat → String) (ds : DataSource)
    (req : ReportRequest) (now : JsClock)
    (h : ds.tickets.queryError ≠ none ∨ ds.contacts.queryError ≠ none ∨
         ds.deals.queryError ≠ none ∨ ds.appointments.queryError ≠ none) :
    ∃ msg, handleRequest toIsoMs toIsoYmd ds req now = ReportResponse.error msg := by
  obtain ⟨msg, hmsg⟩ :=
    assembleReport_error_of_failure ds
      (resolveWindow toIsoMs toIsoYmd req.type req.startDate req.endDate now).1
      (resolveWindow toIsoMs toIsoYmd req.type req.startDate req.endDate now).2
      req.userId req.type.toStr (toIsoMs now.ms) h
  refine ⟨msg, ?_⟩
  unfold handleRequest
  simp [hmsg]

/-- C2 (witness): a failing appointments query, with the other three
queries succeeding, yields the error response. -/
theorem query_failure_aborts_report_witness :
    ∃ msg, handleRequest (fun _ => "") (fun _ => "")
      { tickets := { rows := [], queryError := none }
        contacts := { rows := [], queryError := none }
        deals := { rows := [], queryError := none }
        appointments := { rows := [], queryError := some "appointments query failed" } }
      { type := ReportType.custom, startDate := none, endDate := none,
        userId := none, format := OutputFormat.json }
      { ms := 0, year := 2025, month := 0, day := 1 } = ReportResponse.error msg := by
  exact query_failure_aborts_report (fun _ => "") (fun _ => "") _ _ _
    (by simp)

/-! ## C6: actor-filter semantics per entity -/

/-- C6: with an `actorId` filter set, a ticket passes the filter exactly
when it passes the date bounds and the actor is its customer OR its
assignee (so an assignee-only ticket is included), while a contact, deal
or appointment passes exactly when it passes the date bounds and the actor
is its creator. -/
theorem actor_filter_semantics (s e : Option String) (u : String)
    (t : TicketRow) (c : ContactRow) (d : DealRow) (a : AppointmentRow) :
    (ticketQueryPred s e (some u) t = true ↔
      (ticketQueryPred s e none t = true ∧
        (t.customer_id = u ∨ t.assigned_to = some u))) ∧
    (contactQueryPred s e (some u) c = true ↔
      (contactQueryPred s e none c = true ∧ c.created_by = u)) ∧
    (dealQueryPred s e (some u) d = true ↔
      (dealQueryPred s e none d = true ∧ d.created_by = u)) ∧
    (appointmentQueryPred s e (some u) a = true ↔
      (appointmentQueryPred s e none a = true ∧ a.created_by = u)) := by
  refine ⟨?_, ?_, ?_, ?_⟩ <;>
    simp [ticketQueryPred, contactQueryPred, dealQueryPred, appointmentQueryPred,
      and_assoc]

/-! ## C8: CSV serialization of ticket details -/

/-- C8: the tabular output is the newline-join of a fixed 15-line header
block followed by exactly one comma-joined detail line per ticket row of
`tickets.details`, in order, with a missing customer or assignee name
rendering as the empty string; no other entity's details appear in the
line list. -/
theorem csv_one_line_per_ticket (r : Report) :
    generateCsvReport r = String.intercalate "\n" (csvLines r) ∧
    (csvLines r).length = 15 + r.tickets.details.length ∧
    (csvLines r).take 15 = csvHeaderLines r ∧
    (csvLines r).drop 15 = r.tickets.details.map ticketCsvLine ∧
    (∀ tk : TicketRow, ticketCsvLine tk =
      tk.id ++ "," ++ tk.subject ++ "," ++ tk.status ++ "," ++ tk.priority ++ ","
        ++ tk.created_at ++ "," ++ nameOrEmpty tk.customer ++ ","
        ++ nameOrEmpty tk.assignedTo) ∧
    nameOrEmpty none = "" ∧
    (∀ em : Option String, nameOrEmpty (some { name := none, email := em }) = "") := by
  have hlen : (csvHeaderLines r).length = 15 := rfl
  refine ⟨rfl, ?_, ?_, ?_, fun tk => rfl, rfl, fun em => rfl⟩
  · unfold csvLines
    rw [List.length_append, hlen, List.length_map]
  · unfold csvLines
    rw [← hlen, List.take_left]
  · unfold csvLines
    rw [← hlen, List.drop_left]

/-! ## C4: the deal conversion rate -/

/-- C4: in every deal summary, `total` is the row count, `won` counts the
closed-won rows, `revenue` sums the monetary values with null as 0, and
`conversionRate` is 0 when `total = 0`, is `round(won/total*100)` (nearest
integer, half away from zero for these non-negative values) otherwise, and
always lies between 0 and 100. -/
theorem deal_conversion_rate (rows : List DealRow) :
    (dealSummaryOf rows).total = rows.length ∧
    (dealSummaryOf rows).won = (rows.filter (fun d => d.stage = "closed-won")).length ∧
    (dealSummaryOf rows).revenue = (rows.map (fun d => d.value.getD 0)).sum ∧
    ((dealSummaryOf rows).total = 0 → (dealSummaryOf rows).conversionRate = 0) ∧
    (0 < (dealSummaryOf rows).total →
      (dealSummaryOf rows).conversionRate =
        round (((dealSummaryOf rows).won : ℚ) / ((dealSummaryOf rows).total : ℚ) * 100)) ∧
    0 ≤ (dealSummaryOf rows).conversionRate ∧
    (dealSummaryOf rows).conversionRate ≤ 100 := by
  have htot : (dealSummaryOf rows).total = rows.length := rfl
  have hwon : (dealSummaryOf rows).won
      = (rows.filter (fun d => d.stage = "closed-won")).length := rfl
  have hrate : (dealSummaryOf rows).conversionRate
      = (if 0 < rows.length
         then jsMathRound
            (((rows.filter (fun d => d.stage = "closed-won")).length : ℚ)
              / (rows.length : ℚ) * 100)
         else 0) := rfl
  have hwle : (rows.filter (fun d => d.stage = "closed-won")).length ≤ rows.length :=
    List.length_filter_le _ _
  by_cases hn : 0 < rows.length
  · have hq0 : (0 : ℚ) ≤ ((rows.filter (fun d => d.stage = "closed-won")).length : ℚ)
        / (rows.length : ℚ) * 100 := by positivity
    have hq100 : ((rows.filter (fun d => d.stage = "closed-won")).length : ℚ)
        / (rows.length : ℚ) * 100 ≤ 100 := by
      have hdiv : ((rows.filter (fun d => d.stage = "closed-won")).length : ℚ)
          / (rows.length : ℚ) ≤ 1 := by
        rw [div_le_one (by exact_mod_cast hn)]
        exact_mod_cast hwle
      calc ((rows.filter (fun d => d.stage = "closed-won")).length : ℚ)
            / (rows.length : ℚ) * 100 ≤ 1 * 100 := by
              exact mul_le_mul_of_nonneg_right hdiv (by norm_num)
        _ = 100 := by norm_num
    have hfloor100 : (⌊(100 : ℚ) + 1 / 2⌋ : ℤ) = 100 := by
      rw [Int.floor_eq_iff]
      norm_num
    refine ⟨htot, hwon, rfl, ?_, ?_, ?_, ?_⟩
    · intro h0
      rw [htot] at h0
      omega
    · intro _
      rw [hrate, if_pos hn, jsMathRound, round_eq, htot, hwon]
    · rw [hrate, if_pos hn, jsMathRound]
      exact Int.le_floor.mpr (by push_cast; linarith)
    · rw [hrate, if_pos hn, jsMathRound]
      calc (⌊((rows.filter (fun d => d.stage = "closed-won")).length : ℚ)
              / (rows.length : ℚ) * 100 + 1 / 2⌋ : ℤ)
          ≤ ⌊(100 : ℚ) + 1 / 2⌋ := Int.floor_le_floor (by linarith)
        _ = 100 := hfloor100
  · refine ⟨htot, hwon, rfl, fun _ => ?_, fun h => absurd (htot ▸ h) hn, ?_, ?_⟩
    · rw [hrate, if_neg hn]
    · rw [hrate, if_neg hn]
    · rw [hrate, if_neg hn]
      norm_num

/-! ## C5: the byStatus partition -/

theorem incr_lookup_eq (acc : List (String × Nat)) (s : String) :
    (incr acc s).lookup s = some ((acc.lookup s).getD 0 + 1) := by
  induction acc with
  | nil => simp [incr, List.lookup]
  | cons kv rest ih =>
      obtain ⟨k, v⟩ := kv
      by_cases hks : k = s
      · subst hks
        simp [incr, List.lookup]
      · have hb : (s == k) = false := beq_eq_false_iff_ne.mpr (Ne.symm hks)
        simp [incr, hks, List.lookup, hb, ih]

theorem incr_lookup_ne (acc : List (String × Nat)) (s t : String) (h : s ≠ t) :
    (incr acc s).lookup t = acc.lookup t := by
  have hb : (t == s) = false := beq_eq_false_iff_ne.mpr (Ne.symm h)
  induction acc with
  | nil => simp [incr, List.lookup, hb]
  | cons kv rest ih =>
      obtain ⟨k, v⟩ := kv
      by_cases hks : k = s
      · subst hks
        simp [incr, List.lookup, hb]
      · by_cases hkt : t = k
        · subst hkt
          simp [incr, hks, List.lookup]
        · have hb2 : (t == k) = false := beq_eq_false_iff_ne.mpr hkt
          simp [incr, hks, List.lookup, hb2, ih]

theorem incr_snd_sum (acc : List (String × Nat)) (s : String) :
    ((incr acc s).map Prod.snd).sum = ((acc.map Prod.snd).sum) + 1 := by
  induction acc with
  | nil => simp [incr]
  | cons kv rest ih =>
      obtain ⟨k, v⟩ := kv
      by_cases hks : k = s
      · subst hks
        simp [incr]
        omega
      · simp [incr, hks, ih]
        omega

theorem incr_mem_keys (acc : List (String × Nat)) (s t : String) :
    t ∈ (incr acc s).map Prod.fst ↔ t ∈ acc.map Prod.fst ∨ t = s := by
  induction acc with
  | nil => simp [incr]
  | cons kv rest ih =>
      obtain ⟨k, v⟩ := kv
      by_cases hks : k = s
      · subst hks
        simp [incr]
        tauto
      · simp [incr, hks, ih]
        tauto

theorem incr_keys_nodup (acc : List (String × Nat)) (s : String)
    (h : (acc.map Prod.fst).Nodup) : ((incr acc s).map Prod.fst).Nodup := by
  induction acc with
  | nil => simp [incr]
  | cons kv rest ih =>
      obtain ⟨k, v⟩ := kv
      by_cases hks : k = s
      · subst hks
        simpa [incr] using h
      · simp only [incr, if_neg hks, List.map_cons, List.nodup_cons] at h ⊢
        refine ⟨fun hmem => ?_, ih h.2⟩
        rw [incr_mem_keys] at hmem
        rcases hmem with hmem | hmem
        · exact h.1 hmem
        · exact hks hmem

theorem foldl_incr_lookup (l : List String) (acc : List (String × Nat)) (t : String) :
    (((l.foldl incr acc).lookup t).getD 0) = ((acc.lookup t).getD 0) + l.count t := by
  induction l generalizing acc with
  | nil => simp
  | cons a l ih =>
      rw [List.foldl_cons, ih]
      by_cases h : a = t
      · subst h
        rw [incr_lookup_eq]
        simp [List.count_cons]
        omega
      · rw [incr_lookup_ne _ _ _ h]
        simp [List.count_cons, h]

theorem foldl_incr_sum (l : List String) (acc : List (String × Nat)) :
    (((l.foldl incr acc).map Prod.snd).sum) = ((acc.map Prod.snd).sum) + l.length := by
  induction l generalizing acc with
  | nil => simp
  | cons a l ih =>
      rw [List.foldl_cons, ih, incr_snd_sum]
      simp only [List.length_cons]
      omega

theorem foldl_incr_mem_keys (l : List String) (acc : List (String × Nat)) (t : String) :
    t ∈ (l.foldl incr acc).map Prod.fst ↔ t ∈ acc.map Prod.fst ∨ t ∈ l := by
  induction l generalizing acc with
  | nil => simp
  | cons a l ih =>
      rw [List.foldl_cons, ih, incr_mem_keys]
      simp
      tauto

theorem foldl_incr_nodup (l : List String) (acc : List (String × Nat))
    (h : (acc.map Prod.fst).Nodup) : ((l.foldl incr acc).map Prod.fst).Nodup := by
  induction l generalizing acc with
  | nil => exact h
  | cons a l ih =>
      rw [List.foldl_cons]
      exact ih _ (incr_keys_nodup _ _ h)

/-- C5: in every ticket summary, `byStatus` has exactly one entry per
distinct status observed in the rows (its keys are exactly the observed
statuses, without duplicates, so an unobserved status has no entry), each
entry's value is that status's occurrence count, and the values sum to
`total`. -/
theorem ticket_by_status_partition (rows : List TicketRow) :
    (((ticketSummaryOf rows).byStatus.map Prod.snd).sum = (ticketSummaryOf rows).total) ∧
    (∀ st : String, (((ticketSummaryOf rows).byStatus.lookup st).getD 0)
        = (rows.map (fun r => r.status)).count st) ∧
    (∀ st : String, st ∈ (ticketSummaryOf rows).byStatus.map Prod.fst ↔
        ∃ r ∈ rows, r.status = st) ∧
    ((ticketSummaryOf rows).byStatus.map Prod.fst).Nodup := by
  have hby : (ticketSummaryOf rows).byStatus
      = (rows.map (fun r => r.status)).foldl incr [] := rfl
  have htot : (ticketSummaryOf rows).total = rows.length := rfl
  refine ⟨?_, ?_, ?_, ?_⟩
  · rw [hby, htot, foldl_incr_sum]
    simp
  · intro st
    rw [hby, foldl_incr_lookup]
    simp [List.lookup]
  · intro st
    rw [hby, foldl_incr_mem_keys]
    simp
  · rw [hby]
    exact foldl_incr_nodup _ _ (by simp)

/-! ## C10: template selection -/

/-- C10 (counterexample): the request naming the template `toString` — a
name outside the fixed template set (its dictionary lookup is `none`) —
makes the guard `template && templates[template]` truthy through the
inherited `Object.prototype.toString`; the template branch then throws on
the missing template fields and the handler answers with the failure
response instead of passing the caller-supplied fields through. -/
theorem template_inherited_name_cex :
    templates.lookup "toString" = none ∧
    handleEmailRequest (fun _ => "")
      { recipients := Recipients.one "a@b.example", subject := "subj", html := none,
        text := none, template := some "toString", templateData := [] }
      = EmailResponse.failure ∧
    EmailResponse.failure ≠ EmailResponse.sent "subj" none none := by
  refine ⟨rfl, rfl, by decide⟩

/-- C10 (amended): an email request naming no template, the empty name, or
a name that is neither in the fixed template set nor an inherited
`Object.prototype` member name does not fail: the caller-supplied subject,
html and text are used unchanged; template substitution is applied exactly
when the name is a known template; a name that is an unshadowed
`Object.prototype` member (`toString`, `constructor`, `__proto__`, ...)
makes the guard truthy and the handler fail with the error response. -/
theorem template_selection_behavior (protoStr : String → String) (req : EmailRequest) :
    (req.template = none →
      handleEmailRequest protoStr req = EmailResponse.sent req.subject req.html req.text) ∧
    (∀ name, req.template = some name → templates.lookup name = none →
      name ∉ objectProtoKeys →
      handleEmailRequest protoStr req = EmailResponse.sent req.subject req.html req.text) ∧
    (∀ name tmpl, req.template = some name → templates.lookup name = some tmpl →
      handleEmailRequest protoStr req =
        EmailResponse.sent (renderTemplate protoStr tmpl.subject req.templateData)
          (some (renderTemplate protoStr tmpl.html req.templateData))
          (some (renderTemplate protoStr tmpl.text req.templateData))) ∧
    (∀ name, req.template = some name → templates.lookup name = none →
      name ∈ objectProtoKeys →
      handleEmailRequest protoStr req = EmailResponse.failure) := by
  refine ⟨?_, ?_, ?_, ?_⟩
  · intro h
    simp only [handleEmailRequest, h]
  · intro name h hnone hnp
    simp only [handleEmailRequest, h]
    by_cases hname : name = ""
    · rw [if_pos hname]
    · rw [if_neg hname]
      simp only [templatesIndex, hnone, if_neg hnp]
  · intro name tmpl h hsome
    have hname : name ≠ "" := by
      intro he
      rw [he] at hsome
      have hnone : templates.lookup "" = none := rfl
      rw [hnone] at hsome
      exact Option.noConfusion hsome
    simp only [handleEmailRequest, h]
    rw [if_neg hname]
    simp only [templatesIndex, hsome]
  · intro name h hnone hp
    have hname : name ≠ "" := by
      intro he
      rw [he] at hp
      exact absurd hp (by decide)
    simp only [handleEmailRequest, h]
    rw [if_neg hname]
    simp only [templatesIndex, hnone, if_pos hp]

/-! ## C3: the placeholder substitution policy -/

theorem renderChars_nil (protoStr : String → String) (data : List (String × String)) :
    renderChars protoStr data [] = [] := by
  simp [renderChars]

theorem renderChars_cons_ne (protoStr : String → String) (data : List (String × String))
    (c : Char) (l : List Char) (h : c ≠ '{') :
    renderChars protoStr data (c :: l) = c :: renderChars protoStr data l :=
  renderChars.eq_3 protoStr data c l (fun _ hc _ => absurd hc h)

theorem renderChars_lit (protoStr : String → String) (data : List (String × String))
    (cs rest : List Char) (h : ∀ c ∈ cs, c ≠ '{') :
    renderChars protoStr data (cs ++ rest) = cs ++ renderChars protoStr data rest := by
  induction cs with
  | nil => rfl
  | cons c cs ih =>
      rw [List.cons_append, renderChars_cons_ne protoStr data c _ (h c (by simp)),
        ih (fun x hx => h x (by simp [hx]))]
      rfl

theorem takeWhile_word (w l2 : List Char) (hw : ∀ c ∈ w, isWordChar c = true) :
    (w ++ '}' :: l2).takeWhile isWordChar = w ∧
    (w ++ '}' :: l2).dropWhile isWordChar = '}' :: l2 := by
  induction w with
  | nil =>
      have hbrace : isWordChar '}' = false := by decide
      constructor
      · rw [List.nil_append, List.takeWhile_cons, hbrace]
        simp
      · rw [List.nil_append, List.dropWhile_cons, hbrace]
        simp
  | cons c w ih =>
      have hc : isWordChar c = true := hw c (by simp)
      have hrest := ih (fun x hx => hw x (by simp [hx]))
      constructor
      · rw [List.cons_append, List.takeWhile_cons, hc]
        simp [hrest.1]
      · rw [List.cons_append, List.dropWhile_cons, hc]
        simp [hrest.2]

theorem renderChars_placeholder (protoStr : String → String)
    (data : List (String × String)) (w rest : List Char)
    (hw : ∀ c ∈ w, isWordChar c = true) (hne : w ≠ []) :
    renderChars protoStr data ('{' :: '{' :: (w ++ '}' :: '}' :: rest)) =
      (match jsIndex data (String.mk w) with
        | JsProp.str v => if v = "" then '{' :: '{' :: (w ++ ['}', '}']) else v.data
        | JsProp.builtin name => (protoStr name).data
        | JsProp.undef => '{' :: '{' :: (w ++ ['}', '}'])) ++ renderChars protoStr data rest := by
  have hspan := takeWhile_word w ('}' :: rest) hw
  have htake : List.take 2 ('}' :: '}' :: rest) = ['}', '}'] := rfl
  have hdrop : List.drop 2 ('}' :: '}' :: rest) = rest := rfl
  rw [renderChars.eq_2, hspan.1, hspan.2, if_pos (And.intro hne htake), hdrop]

theorem string_mk_data (s : String) : String.mk s.data = s := rfl

theorem tok_text_ph_data (n : String) :
    (Tok.text (Tok.ph n)).data = '{' :: '{' :: (n.data ++ ['}', '}']) := by
  show (("\x7b\x7b" ++ n ++ "\x7d\x7d") : String).data = _
  rw [String.data_append, String.data_append]
  rfl

theorem renderChars_toks (protoStr : String → String) (data : List (String × String))
    (toks : List Tok) (hwf : ∀ t ∈ toks, TokWF t) :
    renderChars protoStr data (assemble toks).data
      = (renderToksActual protoStr data toks).data := by
  induction toks with
  | nil => exact renderChars_nil protoStr data
  | cons t ts ih =>
      have hts := ih (fun x hx => hwf x (by simp [hx]))
      have ht : TokWF t := hwf t (by simp)
      cases t with
      | lit s =>
          show renderChars protoStr data
              ((Tok.text (Tok.lit s) ++ assemble ts) : String).data = _
          rw [String.data_append]
          have hs : ∀ c ∈ (Tok.text (Tok.lit s)).data, c ≠ '{' := ht
          rw [renderChars_lit protoStr data _ _ hs, hts]
          show _ = ((s ++ renderToksActual protoStr data ts) : String).data
          rw [String.data_append]
          rfl
      | ph n =>
          obtain ⟨hne, hword⟩ := ht
          show renderChars protoStr data
              ((Tok.text (Tok.ph n) ++ assemble ts) : String).data = _
          rw [String.data_append, tok_text_ph_data]
          have hsplit : ('{' :: '{' :: (n.data ++ ['}', '}'])) ++ (assemble ts).data
              = '{' :: '{' :: (n.data ++ '}' :: '}' :: (assemble ts).data) := by
            simp
          rw [hsplit, renderChars_placeholder protoStr data n.data _ hword hne, hts,
            string_mk_data]
          show _ = ((_ ++ renderToksActual protoStr data ts) : String).data
          rw [String.data_append]
          cases hlk : jsIndex data n with
          | undef =>
              show '{' :: '{' :: (n.data ++ ['}', '}'])
                    ++ (renderToksActual protoStr data ts).data
                  = (Tok.text (Tok.ph n)).data ++ (renderToksActual protoStr data ts).data
              rw [tok_text_ph_data]
          | builtin bn => rfl
          | str v =>
              by_cases hv : v = ""
              · subst hv
                rfl
              · show (if v = "" then '{' :: '{' :: (n.data ++ ['}', '}']) else v.data)
                    ++ (renderToksActual protoStr data ts).data
                  = ((if v = "" then Tok.text (Tok.ph n) else v) : String).data
                    ++ (renderToksActual protoStr data ts).data
                rw [if_neg hv, if_neg hv]

/-- C3 (amended): for every well-formed template body and flat string
mapping, the renderer replaces every occurrence of a placeholder whose
name is bound to a truthy (non-empty) own value with that value, replaces
a placeholder whose name is an unshadowed inherited `Object.prototype`
member (`constructor`, `toString`, `__proto__`, ...) with that member's
stringification, and leaves every other placeholder — names resolving to
`undefined` and names bound to the empty, falsy string — intact verbatim,
without raising an error. -/
theorem render_template_policy (protoStr : String → String)
    (data : List (String × String)) (toks : List Tok)
    (hwf : ∀ t ∈ toks, TokWF t) :
    renderTemplate protoStr (assemble toks) data
      = renderToksActual protoStr data toks := by
  have h := renderChars_toks protoStr data toks hwf
  unfold renderTemplate
  rw [h, string_mk_data]

/-- C3 (witness): a body with a literal run, a bound placeholder and an
inherited-name placeholder renders with the bound name substituted and the
inherited member stringified. -/
theorem render_template_policy_witness :
    renderTemplate (fun n => "function " ++ n)
      (assemble [Tok.lit "Hi ", Tok.ph "name", Tok.ph "toString"]) [("name", "Bob")]
      = renderToksActual (fun n => "function " ++ n) [("name", "Bob")]
          [Tok.lit "Hi ", Tok.ph "name", Tok.ph "toString"] := by
  apply render_template_policy
  intro t ht
  rcases List.mem_cons.mp ht with rfl | ht2
  · exact (by decide : ∀ c ∈ ("Hi " : String).data, c ≠ '{')
  · rcases List.mem_cons.mp ht2 with rfl | ht3
    · exact ⟨(by decide : ("name" : String).data ≠ []),
        (by decide : ∀ c ∈ ("name" : String).data, isWordChar c = true)⟩
    · rcases List.mem_cons.mp ht3 with rfl | ht4
      · exact ⟨(by decide : ("toString" : String).data ≠ []),
          (by decide : ∀ c ∈ ("toString" : String).data, isWordChar c = true)⟩
      · exact absurd ht4 (List.not_mem_nil t)

/-- C3 (counterexample): with the mapping binding `name` to the empty
string — a name present in the mapping whose string value is `""` — the
claim\x27s substitution yields `""`, but the renderer leaves the placeholder
intact (`data[key] || match` treats the empty string as falsy), so the
code does not satisfy the claim as stated. -/
theorem render_template_empty_value_cex :
    renderToksClaim [("name", "")] [Tok.ph "name"] = "" ∧
    renderTemplate (fun _ => "") (assemble [Tok.ph "name"]) [("name", "")]
      = "\x7b\x7bname\x7d\x7d" ∧
    renderTemplate (fun _ => "") (assemble [Tok.ph "name"]) [("name", "")]
      ≠ renderToksClaim [("name", "")] [Tok.ph "name"] := by
  have e1 : renderTemplate (fun _ => "") (assemble [Tok.ph "name"]) [("name", "")]
      = String.mk (renderChars (fun _ => "") [("name", "")]
          ('{' :: '{' :: ("name".data ++ '}' :: '}' :: []))) := rfl
  have h := renderChars_placeholder (fun _ => "") [("name", "")] ("name".data) []
    (by decide) (by decide)
  have e2 : renderTemplate (fun _ => "") (assemble [Tok.ph "name"]) [("name", "")]
      = "\x7b\x7bname\x7d\x7d" := by
    rw [e1, h, renderChars_nil]
    decide
  exact ⟨rfl, e2, by rw [e2]; decide⟩

end SaaSComm
